import Mathlib

/-!
# Verification of quantmod's Chart module (src/quantmod/chart.py)

Shallow embedding of the `Chart` class: the price table, the column-name
mapping, the constructor's argument validation, the adjustment engine
(`adjust`, `adjust_volume`), the column-presence predicates, and the figure
assembly pipeline (`to_figure`).

Modelling conventions:
* A pandas `DataFrame` is a time index plus an ordered list of
  (label, column) pairs; labels may repeat, as pandas permits duplicate
  column labels.  `df[name]` is the first column with that label and raises
  `KeyError` when absent; `df[name] = v` overwrites every column with that
  label, or appends a new one.
* Numeric cells are rationals.  Python exceptions are the `PyErr` type and
  fallible code returns `Except PyErr`.
* Mutation is explicit state passing: a method that may mutate `self`
  returns the final state of `self` alongside its return value.
* Code of the repository that lives outside `src/` (the `factory`, `tools`
  and `valid` modules) is modelled from the spec; each such definition says
  so in its doc comment.
-/

namespace Quantmod

/-- Python exceptions distinguished by the embedding: the bare
`Exception(...)` raises in chart.py, `TypeError`, pandas/dict `KeyError`,
`NameError` (unbound bare name), `AttributeError` (missing module
attribute), and `IndexError` (position lookup in an empty sequence). -/
inductive PyErr where
  | exn (msg : String)
  | typeErr (msg : String)
  | keyError (key : String)
  | nameError (nm : String)
  | attributeError (attr : String)
  | indexError
  deriving DecidableEq, Repr

instance {ε α : Type} [DecidableEq ε] [DecidableEq α] :
    DecidableEq (Except ε α) := fun x y =>
  match x, y with
  | .ok a, .ok b =>
    if h : a = b then .isTrue (congrArg Except.ok h)
    else .isFalse (fun he => h (Except.ok.inj he))
  | .error a, .error b =>
    if h : a = b then .isTrue (congrArg Except.error h)
    else .isFalse (fun he => h (Except.error.inj he))
  | .ok _, .error _ => .isFalse (fun he => Except.noConfusion he)
  | .error _, .ok _ => .isFalse (fun he => Except.noConfusion he)

/-- A pandas DataFrame: a time index plus ordered (label, column) pairs.
Duplicate labels are representable, as in pandas. -/
structure DataFrame where
  index : List ℚ
  cols : List (String × List ℚ)
  deriving DecidableEq, Repr

namespace DataFrame

/-- `df.columns` as the ordered list of labels. -/
def columns (df : DataFrame) : List String :=
  df.cols.map Prod.fst

/-- `df[name]`: first column carrying `name`, if any. -/
def getCol (df : DataFrame) (n : String) : Option (List ℚ) :=
  (df.cols.find? (fun p => p.1 == n)).map Prod.snd

/-- `df[name] = v`: overwrite every column labelled `name`, or append a new
column when the label is absent (pandas assignment semantics). -/
def setCol (df : DataFrame) (n : String) (v : List ℚ) : DataFrame :=
  if df.cols.any (fun p => p.1 == n) then
    { df with cols := df.cols.map (fun p => if p.1 == n then (p.1, v) else p) }
  else
    { df with cols := df.cols ++ [(n, v)] }

/-- `df[name]` as an `Except`: `KeyError` when the label is absent. -/
def getColE (df : DataFrame) (n : String) : Except PyErr (List ℚ) :=
  match df.getCol n with
  | none => .error (.keyError n)
  | some v => .ok v

@[simp] theorem setCol_index (df : DataFrame) (n : String) (v : List ℚ) :
    (df.setCol n v).index = df.index := by
  unfold setCol; split <;> rfl

end DataFrame

/-- A Python value that can be passed for the `ticker`, `start` and `end`
constructor arguments (`None` is represented by `Option.none` at call
sites, matching the `is not None` tests in the source). -/
inductive PyValue where
  | pyBool (b : Bool)
  | pyStr (s : String)
  | pyInt (n : ℤ)
  | pyFloat (q : ℚ)
  | pyDatetime (t : ℚ)
  | pyOther
  deriving DecidableEq, Repr

namespace PyValue

/-- Python `v == False`: true for `False`, `0` and `0.0`. -/
def pyEqFalse : PyValue → Bool
  | .pyBool b => !b
  | .pyInt n => n == 0
  | .pyFloat q => q == 0
  | _ => false

/-- `isinstance(v, six.string_types)`. -/
def isStr : PyValue → Bool
  | .pyStr _ => true
  | _ => false

end PyValue

/-- The resolved column-name mapping (the ten canonical field slots
assigned in `Chart.__init__`, chart.py lines 126-135). -/
structure SrcMap where
  op : String
  hi : String
  lo : String
  cl : String
  aop : String
  ahi : String
  alo : String
  acl : String
  vo : String
  di : String
  deriving DecidableEq, Repr

/-- Style metadata of a registered indicator entry (`self.pri` / `self.sec`
values: a dict with keys `type`, `color` and optionally `fillcolor`). -/
structure IndicatorStyle where
  kind : String
  color : String
  fillcolor : Option String
  deriving DecidableEq, Repr

/-- The `Chart` object state: the price table, identity metadata, the ten
resolved column names, the indicator table and the primary/secondary
indicator registries (insertion-ordered dicts). -/
structure Chart where
  df : DataFrame
  ticker : Option String
  startv : PyValue
  endv : PyValue
  op : String
  hi : String
  lo : String
  cl : String
  aop : String
  ahi : String
  alo : String
  acl : String
  vo : String
  di : String
  ind : DataFrame
  pri : List (String × IndicatorStyle)
  sec : List (String × IndicatorStyle)
  deriving DecidableEq, Repr

namespace Chart

/-- `has_open` (chart.py 155-160): membership of the resolved open name. -/
def has_open (c : Chart) : Bool := decide (c.op ∈ c.df.columns)

/-- `has_close` (chart.py 179-184). -/
def has_close (c : Chart) : Bool := decide (c.cl ∈ c.df.columns)

/-- `has_adjusted_close` (chart.py 211-216). -/
def has_adjusted_close (c : Chart) : Bool := decide (c.acl ∈ c.df.columns)

/-- `has_volume` (chart.py 219-224). -/
def has_volume (c : Chart) : Bool := decide (c.vo ∈ c.df.columns)

/-- `has_OHLC` (chart.py 234-239): `cols` is the Python set literal
`{op, hi, lo, cl}` (so duplicates collapse), `arr = df.columns.isin(cols)`,
and the result is `sum(arr) >= len(cols)`. -/
def has_OHLC (c : Chart) : Bool :=
  let cols := [c.op, c.hi, c.lo, c.cl].dedup
  decide (cols.length ≤ c.df.columns.countP (fun x => decide (x ∈ cols)))

/-- `has_OHLCV` (chart.py 241-246): same computation over the five-name
set `{op, hi, lo, cl, vo}`. -/
def has_OHLCV (c : Chart) : Bool :=
  let cols := [c.op, c.hi, c.lo, c.cl, c.vo].dedup
  decide (cols.length ≤ c.df.columns.countP (fun x => decide (x ∈ cols)))

end Chart

/-- `Chart.__init__` (chart.py 33-139).  `src` here is the explicit-mapping
(dict) form; the string-preset form resolves through the external `factory`
module (not under src/), modelled by the caller supplying `defaultSrc` for
the `src is None` path (spec section 4.1: fall back to a process-wide
default).  Validation order follows the source: `src`, then `ticker`, then
`start`, then `end`.  The `isinstance(start, dt.dateime)` test at lines 98
and 113 evaluates the attribute `dt.dateime` first; the `datetime` module
has no such attribute (the source itself uses `dt.datetime` at line 771),
so any value reaching that branch raises `AttributeError` before
`isinstance` is called. -/
def Chart.init (defaultSrc : SrcMap) (df : DataFrame) (src : Option SrcMap)
    (ticker : Option PyValue) (start : Option PyValue) (endArg : Option PyValue) :
    Except PyErr Chart := do
  let s : SrcMap := match src with
    | some m => m
    | none => defaultSrc
  let tk : Option String ←
    match ticker with
    | none => pure none
    | some v =>
      if v.pyEqFalse then pure none
      else match v with
        | .pyStr str => pure (some str)
        | _ => throw (.typeErr "Invalid ticker. It should be string or dict.")
  let st : PyValue ←
    match start with
    | some v =>
      if v.pyEqFalse then pure v
      else if v.isStr then pure v
      else throw (.attributeError "dateime")
    | none =>
      match df.index.head? with
      | none => throw .indexError
      | some q => pure (.pyFloat q)
  let en : PyValue ←
    match endArg with
    | some v =>
      if v.pyEqFalse then pure v
      else if v.isStr then pure v
      else throw (.attributeError "dateime")
    | none =>
      match df.index.getLast? with
      | none => throw .indexError
      | some q => pure (.pyFloat q)
  pure
    { df := df, ticker := tk, startv := st, endv := en,
      op := s.op, hi := s.hi, lo := s.lo, cl := s.cl,
      aop := s.aop, ahi := s.ahi, alo := s.alo, acl := s.acl,
      vo := s.vo, di := s.di,
      ind := { index := df.index, cols := [] }, pri := [], sec := [] }

/-- The chart `Chart(df)` produces on the success path: default source
mapping, `ticker = False`, `start`/`end` taken from the ends of the index. -/
def freshChart (s : SrcMap) (df : DataFrame) (q0 qn : ℚ) : Chart :=
  { df := df, ticker := none, startv := .pyFloat q0, endv := .pyFloat qn,
    op := s.op, hi := s.hi, lo := s.lo, cl := s.cl,
    aop := s.aop, ahi := s.ahi, alo := s.alo, acl := s.acl,
    vo := s.vo, di := s.di,
    ind := { index := df.index, cols := [] }, pri := [], sec := [] }

/-- Elementwise series division `a / b` (pandas `Series.__truediv__`,
as used for `ratio` and for each `column / ratio`). -/
def divCol (a b : List ℚ) : List ℚ :=
  List.zipWith (fun x y => x / y) a b

/-- `Chart.adjust` (chart.py 248-276).  The guard at 260-261 is
`not self.has_OHLC and self.has_adjusted_close` — by Python precedence it
fires only when OHLC is missing AND adjusted close is present.  The result
pairs the final state of `self` with the returned value (`None` for the
in-place path).  In-place writes read each column from the current,
partially updated table, as the source does; the copy path reads every
column from the original and writes the copy, then wraps it via
`Chart(df2)` (default source mapping `ds`). -/
def Chart.adjust (ds : SrcMap) (c : Chart) (inplace : Bool) :
    Except PyErr (Chart × Option Chart) := do
  if (!c.has_OHLC) && c.has_adjusted_close then
    throw (.exn "Insufficient data to adjust OHLC data.")
  else
    let clv ← c.df.getColE c.cl
    let aclv ← c.df.getColE c.acl
    let ratio := divCol clv aclv
    if inplace then
      let opv ← c.df.getColE c.op
      let df1 := c.df.setCol c.op (divCol opv ratio)
      let hiv ← df1.getColE c.hi
      let df2 := df1.setCol c.hi (divCol hiv ratio)
      let lov ← df2.getColE c.lo
      let df3 := df2.setCol c.lo (divCol lov ratio)
      let clv2 ← df3.getColE c.cl
      let df4 := df3.setCol c.cl (divCol clv2 ratio)
      pure ({ c with df := df4 }, none)
    else
      let opv ← c.df.getColE c.op
      let hiv ← c.df.getColE c.hi
      let lov ← c.df.getColE c.lo
      let clv2 ← c.df.getColE c.cl
      let df2 := (((c.df.setCol c.op (divCol opv ratio)).setCol c.hi
        (divCol hiv ratio)).setCol c.lo (divCol lov ratio)).setCol c.cl
        (divCol clv2 ratio)
      let c2 ← Chart.init ds df2 none none none none
      pure (c, some c2)

/-- `Chart.adjust_volume` (chart.py 278-300).  The guard at 290-291 is
`not self.has_volume and self.has_close and self.has_adjusted_close`. -/
def Chart.adjust_volume (ds : SrcMap) (c : Chart) (inplace : Bool) :
    Except PyErr (Chart × Option Chart) := do
  if (!c.has_volume) && c.has_close && c.has_adjusted_close then
    throw (.exn "Insufficient data to adjust volume.")
  else
    let clv ← c.df.getColE c.cl
    let aclv ← c.df.getColE c.acl
    let ratio := divCol clv aclv
    if inplace then
      let vov ← c.df.getColE c.vo
      pure ({ c with df := c.df.setCol c.vo (divCol vov ratio) }, none)
    else
      let vov ← c.df.getColE c.vo
      let df2 := c.df.setCol c.vo (divCol vov ratio)
      let c2 ← Chart.init ds df2 none none none none
      pure (c, some c2)

/-! ## Figure assembly (`Chart.to_figure`, chart.py 307-685) -/

/-- Prefix test on character lists (helper for substring containment). -/
def listPre : List Char → List Char → Bool
  | [], _ => true
  | _ :: _, [] => false
  | a :: as, b :: bs => a == b && listPre as bs

/-- Substring search on character lists. -/
def listSub (needle : List Char) : List Char → Bool
  | [] => needle.isEmpty
  | b :: bs => listPre needle (b :: bs) || listSub needle bs

/-- Python `needle in hay` on strings. -/
def strContains (hay needle : String) : Bool :=
  listSub needle.data hay.data

/-- The fixed chart-kind enumeration `VALID_TRACES`.  The `valid` module is
not under src/; this list is the enumeration printed in the source's own
docstrings (chart.py 317-322). -/
def VALID_TRACES : List String :=
  ["ohlc", "candlestick",
   "line", "line_thin", "line_thick", "line_dashed",
   "line_dashed_thin", "line_dashed_thick",
   "area", "area_dashed",
   "area_dashed_thin", "area_dashed_thick", "area_threshold",
   "scatter"]

/-- Modelled from the spec: `OHLC_TRACES`, the OHLC-style kinds (the
`valid` module is not under src/; spec section 4.4 names ohlc-bar and
candlestick as the OHLC-style kinds, matching the source docstring "For
candlestick and OHLC bars Chart needs to have OHLC enabled"). -/
def OHLC_TRACES : List String := ["ohlc", "candlestick"]

/-- A per-bar or single colour binding (the volume trace's marker colour is
either one colour string or a list with one colour per bar). -/
inductive ColorSpec where
  | one (s : String)
  | many (l : List String)
  deriving DecidableEq, Repr

/-- One renderable trace: the mutable dict built from a template skeleton.
The axis id `'y' + str(n)` is modelled by its number `n`. -/
structure Trace where
  kind : String
  x : List ℚ
  y : List ℚ
  op : List ℚ
  hi : List ℚ
  lo : List ℚ
  cl : List ℚ
  name : String
  yaxisN : Nat
  showlegend : Bool
  lineColor : Option String
  fillcolor : Option String
  scatterColor : Option String
  incFill : Option String
  incLine : Option String
  decFill : Option String
  decLine : Option String
  markerColor : Option ColorSpec
  markerLineColor : Option ColorSpec
  deriving DecidableEq, Repr

/-- A fresh trace skeleton for a given kind (no data bound yet). -/
def Trace.skel (kind : String) : Trace :=
  { kind := kind, x := [], y := [], op := [], hi := [], lo := [], cl := [],
    name := "", yaxisN := 0, showlegend := true,
    lineColor := none, fillcolor := none, scatterColor := none,
    incFill := none, incLine := none, decFill := none, decLine := none,
    markerColor := none, markerLineColor := none }

/-- Legend position/anchoring inside the layout. -/
structure Legend where
  x : ℚ
  xanchor : String
  y : ℚ
  yanchor : String
  deriving DecidableEq, Repr

/-- A y-axis entry; `domain` is the `[lo, hi]` vertical fraction pair and
is absent until assigned. -/
structure Axis where
  domain : Option (ℚ × ℚ)
  deriving DecidableEq, Repr

/-- A subtitle annotation.  The formatted text
(`'Last {0:,.02f}'` / `'Volume {0:,}'`) is modelled as the pair of its
fixed label and the numeric value being formatted. -/
structure Note where
  x : ℚ
  xanchor : String
  y : ℚ
  yanchor : String
  label : String
  value : ℚ
  color : String
  deriving DecidableEq, Repr

/-- The layout dict.  `xaxis`, `yaxis`, `yaxis2`, `yaxis3` and the
annotation list (`notes`, for the source's `layout['annotations']`) model
dict keys that may be absent. -/
structure Layout where
  title : String
  showlegend : Bool
  legend : Legend
  marginT : ℚ
  marginB : ℚ
  xaxis : Option Axis
  yaxis : Option Axis
  yaxis2 : Option Axis
  yaxis3 : Option Axis
  notes : Option (List Note)
  deriving DecidableEq, Repr

/-- The assembled figure `dict(data=..., layout=...)`. -/
structure Figure where
  data : List Trace
  layout : Layout
  deriving DecidableEq, Repr

/-- Modelled from the spec: the external theme/template provider
(`factory.get_template`, not under src/) returns a palette, a mapping from
kind to trace skeleton, default axis skeletons and a layout skeleton
(spec sections 4.4 step 1 and 6). -/
structure Template where
  colors : String → String
  traces : String → Option Trace
  xaxisSkel : Axis
  yaxisSkel : Axis
  legendSkel : Legend
  marginT : ℚ
  marginB : ℚ

/-- Modelled from the spec: the layout skeleton returned by
`factory.get_template`, pre-merged with the caller's title and legend
toggle (spec section 4.4 step 1: caller values win; a boolean legend only
toggles visibility). -/
def templateLayout (tmpl : Template) (title : String) (legendB : Bool) : Layout :=
  { title := title, showlegend := legendB, legend := tmpl.legendSkel,
    marginT := tmpl.marginT, marginB := tmpl.marginB,
    xaxis := none, yaxis := none, yaxis2 := none, yaxis3 := none,
    notes := none }

/-- Default kind resolution (chart.py 398-404). -/
def defaultType (c : Chart) (t : Option String) : Except PyErr String :=
  match t with
  | some ty => .ok ty
  | none =>
    if c.has_OHLC then .ok "candlestick"
    else if c.has_close then .ok "line"
    else .error (.exn "Chart has neither OLHC nor close data.")

/-- Default title resolution (chart.py 412-416).  Line 414 is
`title = ticker`: it reads the bare name `ticker`, which is not bound in
`to_figure`, so a truthy `self.ticker` raises `NameError` here. -/
def defaultTitle (c : Chart) (t : Option String) : Except PyErr String :=
  match t with
  | some ti => .ok ti
  | none =>
    match c.ticker with
    | some s => if s == "" then .ok "" else .error (.nameError "ticker")
    | none => .ok ""

/-- Main-series trace construction (chart.py 471-539).  The kind/data
validation at lines 429-442 is nested inside the
`if not isinstance(type, six.string_types)` branch after its unconditional
`raise`, so for a string kind nothing is validated and control reaches this
dispatch directly: OHLC-style kinds bind the four OHLC columns, then any
kind containing `line`, `area` or `scatter` binds the close column, and
anything else raises the generic exception at line 539. -/
def mainTrace (tmpl : Template) (c : Chart) (ty title : String) :
    Except PyErr Trace := do
  if OHLC_TRACES.contains ty then
    match tmpl.traces ty with
    | none => throw (.keyError ty)
    | some skel =>
      let opv ← c.df.getColE c.op
      let hiv ← c.df.getColE c.hi
      let lov ← c.df.getColE c.lo
      let clv ← c.df.getColE c.cl
      let t0 := { skel with
        x := c.df.index, op := opv, hi := hiv,
        lo := lov, cl := clv, name := title, yaxisN := 1,
        showlegend := false }
      if ty == "candlestick" then
        pure { t0 with
          incFill := some (tmpl.colors "increasing"),
          incLine := some (tmpl.colors "border"),
          decFill := some (tmpl.colors "decreasing"),
          decLine := some (tmpl.colors "border") }
      else if ty == "ohlc" then
        pure { t0 with
          incLine := some (tmpl.colors "increasing"),
          decLine := some (tmpl.colors "decreasing") }
      else
        pure t0
  else if strContains ty "line" then
    match tmpl.traces ty with
    | none => throw (.keyError ty)
    | some skel =>
      let clv ← c.df.getColE c.cl
      pure { skel with
        x := c.df.index, y := clv, name := title,
        yaxisN := 1, showlegend := false,
        lineColor := some (tmpl.colors "primary") }
  else if strContains ty "area" then
    match tmpl.traces ty with
    | none => throw (.keyError ty)
    | some skel =>
      let clv ← c.df.getColE c.cl
      pure { skel with
        x := c.df.index, y := clv, name := title,
        yaxisN := 1, showlegend := false,
        lineColor := some (tmpl.colors "primary") }
  else if strContains ty "scatter" then
    match tmpl.traces ty with
    | none => throw (.keyError ty)
    | some skel =>
      let clv ← c.df.getColE c.cl
      pure { skel with
        x := c.df.index, y := clv, name := title,
        yaxisN := 1, showlegend := false,
        scatterColor := some (tmpl.colors "primary") }
  else
    throw (.exn ("Cannot plot this chart type " ++ ty ++ "."))

/-- Primary-indicator traces (chart.py 542-558), in registration order. -/
def priTraces (tmpl : Template) (ind : DataFrame) :
    List (String × IndicatorStyle) → Except PyErr (List Trace)
  | [] => .ok []
  | (nm, st) :: rest => do
    match tmpl.traces st.kind with
    | none => throw (.keyError st.kind)
    | some skel =>
      let yv ← ind.getColE nm
      let t0 := { skel with
        x := ind.index, y := yv, name := nm, yaxisN := 1,
        lineColor := some (tmpl.colors st.color) }
      let t1 :=
        if strContains st.kind "area" then
          match st.fillcolor with
          | some fc => { t0 with fillcolor := some (tmpl.colors fc) }
          | none => t0
        else t0
      let ts ← priTraces tmpl ind rest
      pure (t1 :: ts)

/-- Per-bar volume colouring (chart.py 571-577): one colour per close
entry, by the sign of `close[i] - open[i]`. -/
def volumeColors (colors : String → String) (clv opv : List ℚ) : List String :=
  List.zipWith
    (fun cv ov => if 0 ≤ cv - ov then colors "increasing" else colors "decreasing")
    clv opv

/-- Volume bar trace (chart.py 560-588): present iff the volume toggle is
on; bound to axis `y2`. -/
def volTraces (tmpl : Template) (c : Chart) (ty : String) (volume : Bool) :
    Except PyErr (List Trace) := do
  if volume then
    match tmpl.traces "bar" with
    | none => throw (.keyError "bar")
    | some skel =>
      let vov ← c.df.getColE c.vo
      let t0 := { skel with
        x := c.df.index, y := vov, name := "Volume",
        yaxisN := 2, showlegend := false }
      let vcolor : ColorSpec :=
        if OHLC_TRACES.contains ty && c.has_open && c.has_close then
          .many (volumeColors tmpl.colors
            ((c.df.getCol c.cl).getD []) ((c.df.getCol c.op).getD []))
        else
          .one (tmpl.colors "primary")
      if ty == "candlestick" then
        pure [{ t0 with
          markerColor := some vcolor,
          markerLineColor := some (.one (tmpl.colors "border")) }]
      else
        pure [{ t0 with
          markerColor := some vcolor,
          markerLineColor := some vcolor }]
  else
    pure []

/-- Secondary-indicator traces (chart.py 596-612): the trace at position
`i` targets axis `y(i + delta + 2)`. -/
def secTraces (tmpl : Template) (ind : DataFrame) (delta : Nat) :
    Nat → List (String × IndicatorStyle) → Except PyErr (List Trace)
  | _, [] => .ok []
  | i, (nm, st) :: rest => do
    match tmpl.traces st.kind with
    | none => throw (.keyError st.kind)
    | some skel =>
      let yv ← ind.getColE nm
      let t0 := { skel with
        x := ind.index, y := yv, name := nm,
        yaxisN := i + delta + 2,
        lineColor := some (tmpl.colors st.color) }
      let t1 :=
        if strContains st.kind "area" then
          match st.fillcolor with
          | some fc => { t0 with fillcolor := some (tmpl.colors fc) }
          | none => t0
        else t0
      let ts ← secTraces tmpl ind delta (i + 1) rest
      pure (t1 :: ts)

/-- The full trace list (main, primaries, volume, secondaries — chart.py
468-612, preserving z-order). -/
def buildData (tmpl : Template) (c : Chart) (ty title : String) (volume : Bool) :
    Except PyErr (List Trace) := do
  let t0 ← mainTrace tmpl c ty title
  let pts ← priTraces tmpl c.ind c.pri
  let vts ← volTraces tmpl c ty volume
  let sts ← secTraces tmpl c.ind (if volume then 1 else 0) 0 c.sec
  pure (t0 :: (pts ++ vts ++ sts))

/-- `layout['xaxis']`/`layout['yaxis']` assignment (chart.py 617-618). -/
def applyAxes (tmpl : Template) (L : Layout) : Layout :=
  { L with xaxis := some tmpl.xaxisSkel, yaxis := some tmpl.yaxisSkel }

/-- The 3+-stack warning printed at chart.py 636. -/
def warn3Msg : String := "Quantmod does not yet support plotting 3+ indicators."

/-- Sub-axis domain partitioning (chart.py 621-636), returning the updated
layout and the printed warnings.  `layout['yaxis']` is always present here
(set at 617-618), so its in-place domain update is an `Option.map`. -/
def applySubaxes (tmpl : Template) (volume : Bool) (secLen : Nat) (L : Layout) :
    Layout × List String :=
  let delta : Nat := if volume then 1 else 0
  if volume || secLen != 0 then
    if secLen + delta == 1 then
      ({ L with
         yaxis := L.yaxis.map (fun a => { a with domain := some (0.30, 1.0) }),
         yaxis2 := some { tmpl.yaxisSkel with domain := some (0.0, 0.25) } }, [])
    else if secLen + delta == 2 then
      ({ L with
         yaxis := L.yaxis.map (fun a => { a with domain := some (0.5, 1.0) }),
         yaxis2 := some { tmpl.yaxisSkel with domain := some (0.25, 0.45) },
         yaxis3 := some { tmpl.yaxisSkel with domain := some (0.0, 0.20) } }, [])
    else
      (L, [warn3Msg])
  else
    (L, [])

/-- Margin collapse when the title is empty/falsy (chart.py 639-640). -/
def applyMargin (L : Layout) : Layout :=
  if L.title == "" then { L with marginT := L.marginB } else L

/-- The subtitle block's net effect on the annotation list and the legend
(chart.py 643-682), or the exception it raises.  Reads but never writes the
axis entries: `layout['yaxis2']['domain']` at line 675 raises `KeyError`
when no second axis was created. -/
def subtitleNL (tmpl : Template) (c : Chart) (ty : String)
    (volume subtitle : Bool) (L : Layout) :
    Except PyErr (Option (List Note) × Legend) := do
  if L.showlegend && subtitle then
    let ns0 : List Note := L.notes.getD []
    let ncolor : String ←
      if OHLC_TRACES.contains ty then do
        let clv ← c.df.getColE c.cl
        let opv ← c.df.getColE c.op
        match clv.getLast?, opv.getLast? with
        | some lastCl, some lastOp =>
          pure (if 0 ≤ lastCl - lastOp then tmpl.colors "increasing"
                else tmpl.colors "decreasing")
        | _, _ => throw .indexError
      else
        pure (tmpl.colors "primary")
    let clv ← c.df.getColE c.cl
    match clv.getLast? with
    | none => throw .indexError
    | some lastCl =>
      let n1 : Note :=
        { x := L.legend.x, xanchor := L.legend.xanchor,
          y := L.legend.y, yanchor := L.legend.yanchor,
          label := "Last", value := lastCl, color := ncolor }
      let lg1 : Legend := { L.legend with y := L.legend.y - 0.03 }
      if volume then
        match L.yaxis2 with
        | none => throw (.keyError "yaxis2")
        | some ax =>
          match ax.domain with
          | none => throw (.keyError "domain")
          | some dom => do
            let vov ← c.df.getColE c.vo
            match vov.getLast? with
            | none => throw .indexError
            | some lastVo =>
              let n2 : Note :=
                { x := L.legend.x, xanchor := L.legend.xanchor,
                  y := dom.2 - 0.01, yanchor := L.legend.yanchor,
                  label := "Volume", value := lastVo, color := ncolor }
              pure (some (ns0 ++ [n1, n2]), lg1)
      else
        pure (some (ns0 ++ [n1]), lg1)
  else
    pure (L.notes, L.legend)

/-- Subtitle application: installs the computed annotation list and legend
into the layout (chart.py 643-682 touch only those two entries). -/
def applySubtitle (tmpl : Template) (c : Chart) (ty : String)
    (volume subtitle : Bool) (L : Layout) : Except PyErr Layout :=
  match subtitleNL tmpl c ty volume subtitle L with
  | .error e => .error e
  | .ok p => .ok { L with notes := p.1, legend := p.2 }

/-- `Chart.to_figure` (chart.py 307-685) for string/bool/unset arguments
and no extra kwargs.  The steps run in source order: kind default (398),
volume default (406), title default (412, where a truthy ticker hits the
unbound-name bug), subtitle/legend defaults, template resolution
(455-465, external, spec-modelled), trace assembly (468-612), axis and
sub-axis layout (617-636), margin (639-640), subtitle annotations
(643-682).  The type checks at 425-452: the kind checks at 429-442 are
nested after the `raise` of the non-string branch and never run for a
string kind; the bool checks cannot fire for `Bool` arguments.  Returns
the figure together with the list of printed warnings. -/
def Chart.to_figure (tmpl : Template) (c : Chart) (typeArg : Option String)
    (volumeArg : Option Bool) (titleArg : Option String)
    (subtitleArg : Option Bool) (legendArg : Option Bool) :
    Except PyErr (Figure × List String) :=
  match defaultType c typeArg with
  | .error e => .error e
  | .ok ty =>
    match defaultTitle c titleArg with
    | .error e => .error e
    | .ok title =>
      match buildData tmpl c ty title (volumeArg.getD c.has_volume) with
      | .error e => .error e
      | .ok data =>
        match applySubtitle tmpl c ty (volumeArg.getD c.has_volume)
            (subtitleArg.getD true)
            (applyMargin (applySubaxes tmpl (volumeArg.getD c.has_volume)
              c.sec.length (applyAxes tmpl
                (templateLayout tmpl title (legendArg.getD true)))).1) with
        | .error e => .error e
        | .ok L4 =>
          .ok ({ data := data, layout := L4 },
            (applySubaxes tmpl (volumeArg.getD c.has_volume) c.sec.length
              (applyAxes tmpl
                (templateLayout tmpl title (legendArg.getD true)))).2)

/-! ## Result-extraction helpers -/

/-- Whether a `to_figure` run returned a figure. -/
def resOk (r : Except PyErr (Figure × List String)) : Bool :=
  match r with
  | .ok _ => true
  | .error _ => false

/-- Warnings printed by a completed `to_figure` run (empty on error). -/
def warnPart (r : Except PyErr (Figure × List String)) : List String :=
  match r with
  | .ok p => p.2
  | .error _ => []

/-- Title of a returned figure. -/
def titlePart (r : Except PyErr (Figure × List String)) : Option String :=
  match r with
  | .ok p => some p.1.layout.title
  | .error _ => none

/-- Domain of the returned figure's primary price axis. -/
def priDomain (r : Except PyErr (Figure × List String)) : Option (ℚ × ℚ) :=
  match r with
  | .ok p =>
    match p.1.layout.yaxis with
    | some a => a.domain
    | none => none
  | .error _ => none

/-- Domain of the returned figure's second y-axis. -/
def sub2Domain (r : Except PyErr (Figure × List String)) : Option (ℚ × ℚ) :=
  match r with
  | .ok p =>
    match p.1.layout.yaxis2 with
    | some a => a.domain
    | none => none
  | .error _ => none

/-- Domain of the returned figure's third y-axis. -/
def sub3Domain (r : Except PyErr (Figure × List String)) : Option (ℚ × ℚ) :=
  match r with
  | .ok p =>
    match p.1.layout.yaxis3 with
    | some a => a.domain
    | none => none
  | .error _ => none

/-- Whether the returned figure carries a second y-axis at all. -/
def sub2Exists (r : Except PyErr (Figure × List String)) : Bool :=
  match r with
  | .ok p => p.1.layout.yaxis2.isSome
  | .error _ => false

/-- Whether the returned figure carries a third y-axis at all. -/
def sub3Exists (r : Except PyErr (Figure × List String)) : Bool :=
  match r with
  | .ok p => p.1.layout.yaxis3.isSome
  | .error _ => false

/-- The named column of the receiver's table after an adjustment call. -/
def adjSelfCol (r : Except PyErr (Chart × Option Chart)) (n : String) :
    Option (Option (List ℚ)) :=
  match r with
  | .ok p => some (p.1.df.getCol n)
  | .error _ => none

/-! ## Concrete fixtures -/

/-- Modelled from the spec: the default source preset's resolved column
names (configuration loading is external; spec section 3 lists the ten
canonical slots).  Any fixed injective naming works for the claims. -/
def srcD : SrcMap :=
  { op := "Open", hi := "High", lo := "Low", cl := "Close",
    aop := "Adj Open", ahi := "Adj High", alo := "Adj Low",
    acl := "Adj Close", vo := "Volume", di := "Dividend" }

/-- Modelled from the spec: a concrete theme template (external provider,
spec sections 4.4 step 1 and 6): a palette keyed by colour name, one trace
skeleton per supported kind plus the volume `bar` skeleton, axis skeletons
with no domain preset, and a legend/margin skeleton. -/
def tmplD : Template :=
  { colors := fun k => String.append "c-" k,
    traces := fun k =>
      if (VALID_TRACES ++ ["bar"]).contains k then some (Trace.skel k) else none,
    xaxisSkel := { domain := none },
    yaxisSkel := { domain := none },
    legendSkel := { x := 1, xanchor := "left", y := 1, yanchor := "top" },
    marginT := 60, marginB := 40 }

/-- A plain line style for indicator fixtures. -/
def lineStyle : IndicatorStyle := { kind := "line", color := "primary", fillcolor := none }

/-- Build a chart state directly (the claims quantify over every `Chart`). -/
def chartOf (s : SrcMap) (df ind : DataFrame) (tk : Option String)
    (sec : List (String × IndicatorStyle)) : Chart :=
  { df := df, ticker := tk, startv := .pyFloat 0, endv := .pyFloat 0,
    op := s.op, hi := s.hi, lo := s.lo, cl := s.cl,
    aop := s.aop, ahi := s.ahi, alo := s.alo, acl := s.acl,
    vo := s.vo, di := s.di, ind := ind, pri := [], sec := sec }

/-- An empty indicator table over a one-point index. -/
def noInd : DataFrame := { index := [0], cols := [] }

/-! ## General lemmas -/

@[simp] theorem exBindOk {ε α β : Type} (a : α) (f : α → Except ε β) :
    (Except.ok a >>= f) = f a := rfl

@[simp] theorem exBindErr {ε α β : Type} (e : ε) (f : α → Except ε β) :
    ((Except.error e : Except ε α) >>= f) = .error e := rfl

@[simp] theorem exPureEq {ε α : Type} (a : α) : (pure a : Except ε α) = .ok a := rfl

@[simp] theorem exThrowEq {ε α : Type} (e : ε) : (throw e : Except ε α) = .error e := rfl

/-- Membership-count criterion: over duplicate-free lists, the source's
`sum(columns.isin(S)) >= len(S)` test is equivalent to `S ⊆ columns`. -/
theorem countP_ge_iff (L S : List String) (hL : L.Nodup) (hS : S.Nodup) :
    (S.length ≤ L.countP (fun x => decide (x ∈ S))) ↔ ∀ x ∈ S, x ∈ L := by
  have hfilter : L.countP (fun x => decide (x ∈ S)) =
      (L.filter (fun x => decide (x ∈ S))).length :=
    (List.countP_eq_length_filter _ _)
  set F := L.filter (fun x => decide (x ∈ S)) with hF
  have hFnd : F.Nodup := hL.filter _
  have hFsub : ∀ x ∈ F, x ∈ S := by
    intro x hx
    have := List.of_mem_filter hx
    simpa using this
  have hFcard : F.toFinset.card = F.length := by
    rw [List.card_toFinset, List.dedup_eq_self.mpr hFnd]
  have hScard : S.toFinset.card = S.length := by
    rw [List.card_toFinset, List.dedup_eq_self.mpr hS]
  constructor
  · intro hle x hxS
    have hsub : F.toFinset ⊆ S.toFinset := by
      intro a ha
      rw [List.mem_toFinset] at ha ⊢
      exact hFsub a ha
    have hcardle : S.toFinset.card ≤ F.toFinset.card := by
      rw [hFcard, hScard]
      exact le_trans hle (le_of_eq hfilter)
    have hEq : F.toFinset = S.toFinset :=
      Finset.eq_of_subset_of_card_le hsub hcardle
    have hxF : x ∈ F := by
      rw [← List.mem_toFinset, hEq, List.mem_toFinset] at *
      simpa [hEq] using (List.mem_toFinset.mpr hxS)
    exact List.mem_of_mem_filter hxF
  · intro hsub
    have hsubF : S.toFinset ⊆ F.toFinset := by
      intro a ha
      rw [List.mem_toFinset] at ha ⊢
      exact List.mem_filter.mpr ⟨hsub a ha, by simpa using ha⟩
    have := Finset.card_le_card hsubF
    rw [hFcard, hScard] at this
    exact le_trans this (le_of_eq hfilter.symm)

/-- Rewriting a label-to-value map is the identity on entries whose label
differs from the target. -/
theorem mapSet_of_not_mem (t : List (String × List ℚ)) (n : String) (v : List ℚ)
    (hn : n ∉ t.map Prod.fst) :
    t.map (fun p => if p.1 == n then (p.1, v) else p) = t := by
  induction t with
  | nil => rfl
  | cons a t ih =>
    have hn1 : ¬ n = a.1 := fun h => hn (by simp [h])
    have hn2 : n ∉ t.map Prod.fst := fun h => hn (by simp [h])
    have ha : (a.1 == n) = false :=
      beq_eq_false_iff_ne.mpr (fun he => hn1 he.symm)
    rw [List.map_cons, ha]
    simp only [Bool.false_eq_true, if_false]
    rw [ih hn2]

/-- Over a duplicate-free label list, a successful first-match lookup makes
the set-all rewrite a no-op and the existence test true. -/
theorem findSet_eq (t : List (String × List ℚ)) (n : String) (v : List ℚ)
    (hnd : (t.map Prod.fst).Nodup)
    (hget : (t.find? (fun p => p.1 == n)).map Prod.snd = some v) :
    (t.map (fun p => if p.1 == n then (p.1, v) else p) = t) ∧
    (t.any (fun p => p.1 == n) = true) := by
  induction t with
  | nil => simp at hget
  | cons a t ih =>
    rw [List.map_cons, List.nodup_cons] at hnd
    cases hb : (a.1 == n) with
    | true =>
      have hn : n ∉ t.map Prod.fst := by
        have he : a.1 = n := beq_iff_eq.mp hb
        rw [← he]; exact hnd.1
      have hv : a.2 = v := by
        simp only [List.find?_cons_of_pos, hb] at hget
        simpa using hget
      refine ⟨?_, by simp [List.any_cons, hb]⟩
      rw [List.map_cons, hb]
      simp only [if_true]
      rw [mapSet_of_not_mem t n v hn, ← hv]
    | false =>
      have hget2 : (t.find? (fun p => p.1 == n)).map Prod.snd = some v := by
        simpa [hb] using hget
      obtain ⟨hmap, hany⟩ := ih hnd.2 hget2
      refine ⟨?_, by simp [List.any_cons, hb, hany]⟩
      rw [List.map_cons, hb]
      simp only [Bool.false_eq_true, if_false]
      rw [hmap]

/-- Writing back the value a duplicate-free table already holds under a
label leaves the table unchanged. -/
theorem setCol_self {df : DataFrame} {n : String} {v : List ℚ}
    (hnd : df.columns.Nodup) (hget : df.getCol n = some v) :
    df.setCol n v = df := by
  obtain ⟨hmap, hany⟩ := findSet_eq df.cols n v
    (by simpa [DataFrame.columns] using hnd)
    (by simpa [DataFrame.getCol] using hget)
  unfold DataFrame.setCol
  rw [hany, if_pos rfl, hmap]

/-- The margin step never touches the axis entries. -/
theorem applyMargin_axes (L : Layout) :
    (applyMargin L).yaxis = L.yaxis ∧ (applyMargin L).yaxis2 = L.yaxis2 ∧
    (applyMargin L).yaxis3 = L.yaxis3 := by
  unfold applyMargin
  split <;> exact ⟨rfl, rfl, rfl⟩

/-- The subtitle step, when it succeeds, never touches the axis entries. -/
theorem applySubtitle_axes {tmpl : Template} {c : Chart} {ty : String}
    {vol st : Bool} {L L2 : Layout}
    (h : applySubtitle tmpl c ty vol st L = .ok L2) :
    L2.yaxis = L.yaxis ∧ L2.yaxis2 = L.yaxis2 ∧ L2.yaxis3 = L.yaxis3 := by
  unfold applySubtitle at h
  split at h
  · exact Except.noConfusion h
  · cases h
    exact ⟨rfl, rfl, rfl⟩

/-- Sub-axis partitioning with exactly one stacked sub-series. -/
theorem applySubaxes_count1 (tmpl : Template) (vol : Bool) (n : Nat) (L : Layout)
    (h : n + (if vol then 1 else 0) = 1) :
    applySubaxes tmpl vol n L =
      ({ L with
         yaxis := L.yaxis.map (fun a => { a with domain := some (0.30, 1.0) }),
         yaxis2 := some { tmpl.yaxisSkel with domain := some (0.0, 0.25) } }, []) := by
  cases vol with
  | true =>
    have hn : n = 0 := by simp at h; omega
    subst hn
    rfl
  | false =>
    have hn : n = 1 := by simp at h; omega
    subst hn
    rfl

/-- Sub-axis partitioning with exactly two stacked sub-series. -/
theorem applySubaxes_count2 (tmpl : Template) (vol : Bool) (n : Nat) (L : Layout)
    (h : n + (if vol then 1 else 0) = 2) :
    applySubaxes tmpl vol n L =
      ({ L with
         yaxis := L.yaxis.map (fun a => { a with domain := some (0.5, 1.0) }),
         yaxis2 := some { tmpl.yaxisSkel with domain := some (0.25, 0.45) },
         yaxis3 := some { tmpl.yaxisSkel with domain := some (0.0, 0.20) } }, []) := by
  cases vol with
  | true =>
    have hn : n = 1 := by simp at h; omega
    subst hn
    rfl
  | false =>
    have hn : n = 2 := by simp at h; omega
    subst hn
    rfl

/-- Sub-axis partitioning with three or more stacked sub-series: the layout
is untouched and only the warning is emitted. -/
theorem applySubaxes_ge3 (tmpl : Template) (vol : Bool) (n : Nat) (L : Layout)
    (h : 3 ≤ n + (if vol then 1 else 0)) :
    applySubaxes tmpl vol n L = (L, [warn3Msg]) := by
  cases vol with
  | true =>
    have h1 : (n + 1 == 1) = false := by
      rw [beq_eq_false_iff_ne]; simp at h; omega
    have h2 : (n + 1 == 2) = false := by
      rw [beq_eq_false_iff_ne]; simp at h; omega
    unfold applySubaxes
    simp [h1, h2]
  | false =>
    have h3 : 3 ≤ n := by simpa using h
    have hne0 : ¬ n = 0 := by omega
    have hne1 : ¬ n = 1 := by omega
    have hne2 : ¬ n = 2 := by omega
    unfold applySubaxes
    simp [hne0, hne1, hne2]

/-- A completed `to_figure` run exposes an `.ok` pair. -/
theorem resOk_ok {r : Except PyErr (Figure × List String)}
    (h : resOk r = true) : ∃ pr, r = .ok pr := by
  cases r with
  | ok pr => exact ⟨pr, rfl⟩
  | error e => exact absurd h (by simp [resOk])

/-- Layout facts of any returned figure when the stacked sub-series count
is exactly one. -/
theorem to_figure_ok_axes1 {tmpl : Template} {c : Chart} {ta : Option String}
    {va : Option Bool} {tia : Option String} {sa la : Option Bool}
    {pr : Figure × List String}
    (hcnt : c.sec.length + (if va.getD c.has_volume then 1 else 0) = 1)
    (h : Chart.to_figure tmpl c ta va tia sa la = .ok pr) :
    pr.2 = [] ∧
    pr.1.layout.yaxis = some { tmpl.yaxisSkel with domain := some (0.30, 1.0) } ∧
    pr.1.layout.yaxis2 = some { tmpl.yaxisSkel with domain := some (0.0, 0.25) } ∧
    pr.1.layout.yaxis3 = none := by
  unfold Chart.to_figure at h
  split at h
  · exact Except.noConfusion h
  split at h
  · exact Except.noConfusion h
  split at h
  · exact Except.noConfusion h
  split at h
  · exact Except.noConfusion h
  next L4 hsub =>
    cases h
    rw [applySubaxes_count1 _ _ _ _ hcnt] at hsub ⊢
    obtain ⟨hy, hy2, hy3⟩ := applySubtitle_axes hsub
    obtain ⟨hm, hm2, hm3⟩ := applyMargin_axes
      ({ applyAxes tmpl (templateLayout tmpl _ (la.getD true)) with
         yaxis := (applyAxes tmpl (templateLayout tmpl _ (la.getD true))).yaxis.map
           (fun a => { a with domain := some (0.30, 1.0) }),
         yaxis2 := some { tmpl.yaxisSkel with domain := some (0.0, 0.25) } })
    refine ⟨rfl, ?_, ?_, ?_⟩
    · rw [hy, hm] <;> rfl
    · rw [hy2, hm2] <;> rfl
    · rw [hy3, hm3] <;> rfl

/-- Layout facts of any returned figure when the stacked sub-series count
is exactly two. -/
theorem to_figure_ok_axes2 {tmpl : Template} {c : Chart} {ta : Option String}
    {va : Option Bool} {tia : Option String} {sa la : Option Bool}
    {pr : Figure × List String}
    (hcnt : c.sec.length + (if va.getD c.has_volume then 1 else 0) = 2)
    (h : Chart.to_figure tmpl c ta va tia sa la = .ok pr) :
    pr.2 = [] ∧
    pr.1.layout.yaxis = some { tmpl.yaxisSkel with domain := some (0.5, 1.0) } ∧
    pr.1.layout.yaxis2 = some { tmpl.yaxisSkel with domain := some (0.25, 0.45) } ∧
    pr.1.layout.yaxis3 = some { tmpl.yaxisSkel with domain := some (0.0, 0.20) } := by
  unfold Chart.to_figure at h
  split at h
  · exact Except.noConfusion h
  split at h
  · exact Except.noConfusion h
  split at h
  · exact Except.noConfusion h
  split at h
  · exact Except.noConfusion h
  next L4 hsub =>
    cases h
    rw [applySubaxes_count2 _ _ _ _ hcnt] at hsub ⊢
    obtain ⟨hy, hy2, hy3⟩ := applySubtitle_axes hsub
    obtain ⟨hm, hm2, hm3⟩ := applyMargin_axes
      ({ applyAxes tmpl (templateLayout tmpl _ (la.getD true)) with
         yaxis := (applyAxes tmpl (templateLayout tmpl _ (la.getD true))).yaxis.map
           (fun a => { a with domain := some (0.5, 1.0) }),
         yaxis2 := some { tmpl.yaxisSkel with domain := some (0.25, 0.45) },
         yaxis3 := some { tmpl.yaxisSkel with domain := some (0.0, 0.20) } })
    refine ⟨rfl, ?_, ?_, ?_⟩
    · rw [hy, hm] <;> rfl
    · rw [hy2, hm2] <;> rfl
    · rw [hy3, hm3] <;> rfl

/-- Layout facts of any returned figure when the stacked sub-series count
is three or more: the warning is emitted and no extra axes exist. -/
theorem to_figure_ok_axes3 {tmpl : Template} {c : Chart} {ta : Option String}
    {va : Option Bool} {tia : Option String} {sa la : Option Bool}
    {pr : Figure × List String}
    (hcnt : 3 ≤ c.sec.length + (if va.getD c.has_volume then 1 else 0))
    (h : Chart.to_figure tmpl c ta va tia sa la = .ok pr) :
    pr.2 = [warn3Msg] ∧
    pr.1.layout.yaxis2 = none ∧
    pr.1.layout.yaxis3 = none := by
  unfold Chart.to_figure at h
  split at h
  · exact Except.noConfusion h
  split at h
  · exact Except.noConfusion h
  split at h
  · exact Except.noConfusion h
  split at h
  · exact Except.noConfusion h
  next L4 hsub =>
    cases h
    rw [applySubaxes_ge3 _ _ _ _ hcnt] at hsub ⊢
    obtain ⟨hy, hy2, hy3⟩ := applySubtitle_axes hsub
    obtain ⟨hm, hm2, hm3⟩ := applyMargin_axes
      (applyAxes tmpl (templateLayout tmpl _ (la.getD true)))
    refine ⟨rfl, ?_, ?_⟩
    · rw [hy2, hm2] <;> rfl
    · rw [hy3, hm3] <;> rfl

/-- Dividing a column entrywise by the self-ratio of an all-nonzero column
of the same length is the identity. -/
theorem divCol_ratio_self (a b : List ℚ) (hl : a.length = b.length)
    (hnz : ∀ x ∈ b, x ≠ 0) : divCol a (divCol b b) = a := by
  induction a generalizing b with
  | nil => rfl
  | cons x xs ih =>
    cases b with
    | nil => simp at hl
    | cons y ys =>
      simp only [divCol, List.zipWith_cons_cons]
      have hy : y ≠ 0 := hnz y (by simp)
      have : y / y = 1 := div_self hy
      rw [this]
      simp only [div_one, List.cons.injEq, true_and]
      have := ih ys (by simpa using hl) (fun x hx => hnz x (by simp [hx]))
      simpa [divCol] using this

/-! ## Claim C1 -/

/-- A table with full OHLC but no adjusted close. -/
def c1AdjChart : Chart :=
  chartOf srcD
    { index := [0],
      cols := [("Open", [4]), ("High", [6]), ("Low", [2]), ("Close", [3])] }
    noInd none []

/-- A table with close and volume but no adjusted close. -/
def c1VolChart : Chart :=
  chartOf srcD
    { index := [0], cols := [("Close", [3]), ("Volume", [5])] }
    noInd none []

/-- C1: the claim says `adjust` raises the insufficiency error exactly when
full OHLC or adjusted close is missing, and `adjust_volume` exactly when
close, volume or adjusted close is missing.  The source guards
(`not self.has_OHLC and self.has_adjusted_close`, chart.py 260, and
`not self.has_volume and self.has_close and self.has_adjusted_close`, 290)
never fire when the adjusted-close column is absent, so with OHLC present
and adjusted close missing (resp. close and volume present, adjusted close
missing) both methods sail past the guard and die on the ratio's column
lookup with `KeyError` — not the specified insufficiency error. -/
theorem claim1_guard_dead :
    Chart.adjust srcD c1AdjChart false = .error (.keyError "Adj Close") ∧
    Chart.adjust_volume srcD c1VolChart false = .error (.keyError "Adj Close") ∧
    c1AdjChart.has_OHLC = true ∧
    c1AdjChart.has_adjusted_close = false ∧
    c1VolChart.has_close = true ∧
    c1VolChart.has_volume = true ∧
    c1VolChart.has_adjusted_close = false :=
  ⟨rfl, rfl, by decide, by decide, by decide, by decide, by decide⟩

/-! ## Claim C2 -/

/-- A table with only a close column. -/
def c2Chart : Chart :=
  chartOf srcD { index := [0], cols := [("Close", [1])] } noInd none []

/-- C2: the claim says an explicit kind outside the fixed enumeration is
rejected with an error and that an OHLC-style kind without OHLC columns
raises the insufficiency error.  The checks at chart.py 429-442 are nested
after the unconditional `raise` of the non-string branch (425-428), so they
never execute: `candlestick` on a close-only chart reaches the trace
builder and dies on the open-column lookup (`KeyError`, not the
insufficiency error), and an out-of-enumeration kind such as `xline` is
never rejected by validation — it reaches the template lookup. -/
theorem claim2_validation_dead :
    Chart.to_figure tmplD c2Chart (some "candlestick") (some false)
      (some "T") (some false) (some true) = .error (.keyError "Open") ∧
    Chart.to_figure tmplD c2Chart (some "xline") (some false)
      (some "T") (some false) (some true) = .error (.keyError "xline") ∧
    c2Chart.has_OHLC = false ∧
    ("candlestick" ∈ OHLC_TRACES) ∧
    ("xline" ∉ VALID_TRACES) :=
  ⟨rfl, rfl, by decide, by decide, by decide⟩

/-! ## Claim C3 -/

/-- Chart with volume and three secondary indicators (four stacked
sub-series). -/
def c3Chart : Chart :=
  chartOf srcD
    { index := [0], cols := [("Close", [1]), ("Volume", [5])] }
    { index := [0], cols := [("s1", [1]), ("s2", [2]), ("s3", [3])] }
    none [("s1", lineStyle), ("s2", lineStyle), ("s3", lineStyle)]

/-- C3 counterexample: a chart whose stacked sub-series count is four
(volume plus three secondaries), rendered with default arguments, does not
complete: after the sub-axis block prints its warning, the subtitle block
reads `layout['yaxis2']` (chart.py 675), which was never created, and
`to_figure` dies with `KeyError` instead of returning a figure. -/
theorem claim3_cex :
    3 ≤ c3Chart.sec.length +
      (if (none : Option Bool).getD c3Chart.has_volume then 1 else 0) ∧
    Chart.to_figure tmplD c3Chart none none none none none =
      .error (.keyError "yaxis2") :=
  ⟨by decide, rfl⟩

/-- C3 (amended): with three or more stacked sub-series, whenever
`to_figure` does return a figure it has emitted exactly the 3+-indicator
warning and has created neither of the extra y-axes; completion is not
guaranteed, because with volume, legend and subtitle all enabled the
volume annotation reads the absent second axis and raises `KeyError`. -/
theorem claim3_warn_domains (tmpl : Template) (c : Chart) (ta : Option String)
    (va : Option Bool) (tia : Option String) (sa la : Option Bool)
    (hcnt : 3 ≤ c.sec.length + (if va.getD c.has_volume then 1 else 0))
    (hok : resOk (Chart.to_figure tmpl c ta va tia sa la) = true) :
    warnPart (Chart.to_figure tmpl c ta va tia sa la) = [warn3Msg] ∧
    sub2Exists (Chart.to_figure tmpl c ta va tia sa la) = false ∧
    sub3Exists (Chart.to_figure tmpl c ta va tia sa la) = false := by
  obtain ⟨pr, hpr⟩ := resOk_ok hok
  obtain ⟨hw, h2, h3⟩ := to_figure_ok_axes3 hcnt hpr
  rw [hpr]
  unfold warnPart sub2Exists sub3Exists
  simp [hw, h2, h3]

/-- Chart with no volume column and three secondary indicators. -/
def c3wChart : Chart :=
  chartOf srcD
    { index := [0], cols := [("Close", [1])] }
    { index := [0], cols := [("s1", [1]), ("s2", [2]), ("s3", [3])] }
    none [("s1", lineStyle), ("s2", lineStyle), ("s3", lineStyle)]

/-- C3 witness: a three-stack chart (three secondaries, volume off) whose
default render completes, with exactly the warning and no extra axes. -/
theorem claim3_warn_domains_witness :
    (3 ≤ c3wChart.sec.length +
      (if (none : Option Bool).getD c3wChart.has_volume then 1 else 0)) ∧
    (resOk (Chart.to_figure tmplD c3wChart none none none none none) = true) ∧
    (warnPart (Chart.to_figure tmplD c3wChart none none none none none) =
        [warn3Msg] ∧
      sub2Exists (Chart.to_figure tmplD c3wChart none none none none none) =
        false ∧
      sub3Exists (Chart.to_figure tmplD c3wChart none none none none none) =
        false) :=
  ⟨by decide, by rfl,
    claim3_warn_domains tmplD c3wChart none none none none none
      (by decide) (by rfl)⟩

/-! ## Claim C4 -/

/-- Chart with volume and two secondary indicators. -/
def c4Chart : Chart :=
  chartOf srcD
    { index := [0], cols := [("Close", [1]), ("Volume", [5])] }
    { index := [0], cols := [("t1", [1]), ("t2", [2])] }
    none [("t1", lineStyle), ("t2", lineStyle)]

/-- C4 counterexample: with volume enabled and two secondary indicators the
stacked count is three, which the sub-axis block treats as unsupported; the
default render then fails on the missing second axis, so no figure with
three domain-assigned y-axes is ever returned for this configuration. -/
theorem claim4_cex :
    c4Chart.sec.length = 2 ∧
    (none : Option Bool).getD c4Chart.has_volume = true ∧
    Chart.to_figure tmplD c4Chart none none none none none =
      .error (.keyError "yaxis2") :=
  ⟨rfl, by decide, rfl⟩

/-- C4 (amended): with volume enabled and zero secondary indicators, any
returned figure has exactly one extra y-axis with domain [0.0, 0.25] (and
price domain [0.30, 1.0]); it is with volume enabled and one secondary
indicator, not two, that it has three total y-axes with domains
[0.5, 1.0], [0.25, 0.45], [0.0, 0.20] (volume plus two secondaries is the
unsupported three-stack case). -/
theorem claim4_domains (tmpl : Template) (c : Chart) (ta : Option String)
    (va : Option Bool) (tia : Option String) (sa la : Option Bool)
    (hv : va.getD c.has_volume = true)
    (hok : resOk (Chart.to_figure tmpl c ta va tia sa la) = true) :
    (c.sec.length = 0 →
      priDomain (Chart.to_figure tmpl c ta va tia sa la) = some (0.30, 1.0) ∧
      sub2Domain (Chart.to_figure tmpl c ta va tia sa la) = some (0.0, 0.25) ∧
      sub2Exists (Chart.to_figure tmpl c ta va tia sa la) = true ∧
      sub3Exists (Chart.to_figure tmpl c ta va tia sa la) = false) ∧
    (c.sec.length = 1 →
      priDomain (Chart.to_figure tmpl c ta va tia sa la) = some (0.5, 1.0) ∧
      sub2Domain (Chart.to_figure tmpl c ta va tia sa la) = some (0.25, 0.45) ∧
      sub3Domain (Chart.to_figure tmpl c ta va tia sa la) = some (0.0, 0.20) ∧
      sub2Exists (Chart.to_figure tmpl c ta va tia sa la) = true ∧
      sub3Exists (Chart.to_figure tmpl c ta va tia sa la) = true) := by
  obtain ⟨pr, hpr⟩ := resOk_ok hok
  constructor
  · intro h0
    have hcnt : c.sec.length + (if va.getD c.has_volume then 1 else 0) = 1 := by
      rw [h0, hv]; rfl
    obtain ⟨hw, hy, h2, h3⟩ := to_figure_ok_axes1 hcnt hpr
    rw [hpr]
    unfold priDomain sub2Domain sub2Exists sub3Exists
    simp [hy, h2, h3]
  · intro h1
    have hcnt : c.sec.length + (if va.getD c.has_volume then 1 else 0) = 2 := by
      rw [h1, hv]; rfl
    obtain ⟨hw, hy, h2, h3⟩ := to_figure_ok_axes2 hcnt hpr
    rw [hpr]
    unfold priDomain sub2Domain sub3Domain sub2Exists sub3Exists
    simp [hy, h2, h3]

/-- Chart with volume and no secondary indicators. -/
def c4wChart : Chart :=
  chartOf srcD
    { index := [0], cols := [("Close", [1]), ("Volume", [5])] }
    noInd none []

/-- C4 witness: a volume-only chart's default render completes with the
single extra axis and the amended domains. -/
theorem claim4_domains_witness :
    ((none : Option Bool).getD c4wChart.has_volume = true) ∧
    (resOk (Chart.to_figure tmplD c4wChart none none none none none) = true) ∧
    ((c4wChart.sec.length = 0 →
      priDomain (Chart.to_figure tmplD c4wChart none none none none none) =
        some (0.30, 1.0) ∧
      sub2Domain (Chart.to_figure tmplD c4wChart none none none none none) =
        some (0.0, 0.25) ∧
      sub2Exists (Chart.to_figure tmplD c4wChart none none none none none) =
        true ∧
      sub3Exists (Chart.to_figure tmplD c4wChart none none none none none) =
        false) ∧
    (c4wChart.sec.length = 1 →
      priDomain (Chart.to_figure tmplD c4wChart none none none none none) =
        some (0.5, 1.0) ∧
      sub2Domain (Chart.to_figure tmplD c4wChart none none none none none) =
        some (0.25, 0.45) ∧
      sub3Domain (Chart.to_figure tmplD c4wChart none none none none none) =
        some (0.0, 0.20) ∧
      sub2Exists (Chart.to_figure tmplD c4wChart none none none none none) =
        true ∧
      sub3Exists (Chart.to_figure tmplD c4wChart none none none none none) =
        true)) :=
  ⟨by decide, by rfl,
    claim4_domains tmplD c4wChart none none none none none
      (by decide) (by rfl)⟩

/-! ## Claim C7 -/

/-- C7: with exactly one stacked sub-series, any returned figure carries
price domain [0.30, 1.0] and stacked domain [0.0, 0.25]; with exactly two,
price [0.5, 1.0], first stacked [0.25, 0.45], second stacked [0.0, 0.20]
(chart.py 621-633). -/
theorem claim7_domains (tmpl : Template) (c : Chart) (ta : Option String)
    (va : Option Bool) (tia : Option String) (sa la : Option Bool)
    (hok : resOk (Chart.to_figure tmpl c ta va tia sa la) = true) :
    (c.sec.length + (if va.getD c.has_volume then 1 else 0) = 1 →
      priDomain (Chart.to_figure tmpl c ta va tia sa la) = some (0.30, 1.0) ∧
      sub2Domain (Chart.to_figure tmpl c ta va tia sa la) = some (0.0, 0.25) ∧
      sub3Exists (Chart.to_figure tmpl c ta va tia sa la) = false) ∧
    (c.sec.length + (if va.getD c.has_volume then 1 else 0) = 2 →
      priDomain (Chart.to_figure tmpl c ta va tia sa la) = some (0.5, 1.0) ∧
      sub2Domain (Chart.to_figure tmpl c ta va tia sa la) = some (0.25, 0.45) ∧
      sub3Domain (Chart.to_figure tmpl c ta va tia sa la) = some (0.0, 0.20)) := by
  obtain ⟨pr, hpr⟩ := resOk_ok hok
  constructor
  · intro hcnt
    obtain ⟨hw, hy, h2, h3⟩ := to_figure_ok_axes1 hcnt hpr
    rw [hpr]
    unfold priDomain sub2Domain sub3Exists
    simp [hy, h2, h3]
  · intro hcnt
    obtain ⟨hw, hy, h2, h3⟩ := to_figure_ok_axes2 hcnt hpr
    rw [hpr]
    unfold priDomain sub2Domain sub3Domain
    simp [hy, h2, h3]

/-- Chart with volume and one secondary indicator (two stacked series). -/
def c7wChart : Chart :=
  chartOf srcD
    { index := [0], cols := [("Close", [1]), ("Volume", [5])] }
    { index := [0], cols := [("u1", [7])] }
    none [("u1", lineStyle)]

/-- C7 witness: a volume-plus-one-secondary chart (count two) renders with
the two-stack domains. -/
theorem claim7_domains_witness :
    (resOk (Chart.to_figure tmplD c7wChart none none none none none) = true) ∧
    ((c7wChart.sec.length +
        (if (none : Option Bool).getD c7wChart.has_volume then 1 else 0) = 1 →
      priDomain (Chart.to_figure tmplD c7wChart none none none none none) =
        some (0.30, 1.0) ∧
      sub2Domain (Chart.to_figure tmplD c7wChart none none none none none) =
        some (0.0, 0.25) ∧
      sub3Exists (Chart.to_figure tmplD c7wChart none none none none none) =
        false) ∧
    (c7wChart.sec.length +
        (if (none : Option Bool).getD c7wChart.has_volume then 1 else 0) = 2 →
      priDomain (Chart.to_figure tmplD c7wChart none none none none none) =
        some (0.5, 1.0) ∧
      sub2Domain (Chart.to_figure tmplD c7wChart none none none none none) =
        some (0.25, 0.45) ∧
      sub3Domain (Chart.to_figure tmplD c7wChart none none none none none) =
        some (0.0, 0.20))) :=
  ⟨by rfl, claim7_domains tmplD c7wChart none none none none none (by rfl)⟩

/-! ## Claim C5 -/

/-- Chart with a ticker set. -/
def c5Chart : Chart :=
  chartOf srcD { index := [0], cols := [("Close", [1])] } noInd
    (some "AAPL") []

/-- Chart with no ticker (`ticker = False`). -/
def c5bChart : Chart :=
  chartOf srcD { index := [0], cols := [("Close", [1])] } noInd none []

/-- C5: the claim says an unset title resolves to the ticker label when a
ticker is set, and to the empty string otherwise.  Line 414 is
`title = ticker`, reading the bare name `ticker`, which is unbound in
`to_figure` — so a truthy ticker makes the call die with `NameError`
instead of using the label; only the no-ticker branch (empty string)
works. -/
theorem claim5_title_bug :
    Chart.to_figure tmplD c5Chart none (some false) none (some false)
      (some true) = .error (.nameError "ticker") ∧
    titlePart (Chart.to_figure tmplD c5bChart none (some false) none
      (some false) (some true)) = some "" :=
  ⟨rfl, rfl⟩

/-! ## Claim C6 -/

/-- A table whose label list is four copies of the open name. -/
def c6Chart : Chart :=
  chartOf srcD
    { index := [0],
      cols := [("Open", [1]), ("Open", [1]), ("Open", [1]), ("Open", [1])] }
    noInd none []

/-- C6 counterexample: with duplicate column labels the membership-count
test `sum(columns.isin(cols)) >= len(cols)` is fooled — four copies of the
open column make `has_OHLC` true although the high name is not a member of
the columns, refuting the unconditional iff. -/
theorem claim6_cex :
    c6Chart.has_OHLC = true ∧ c6Chart.hi ∉ c6Chart.df.columns :=
  ⟨by decide, by decide⟩

/-- C6 (amended): provided the table's column labels are pairwise
distinct, `has_OHLC` is true iff all four resolved open/high/low/close
names are column members, and `has_OHLCV` iff additionally the resolved
volume name is a member. -/
theorem claim6_iff (c : Chart) (hnd : c.df.columns.Nodup) :
    (c.has_OHLC = true ↔
      (c.op ∈ c.df.columns ∧ c.hi ∈ c.df.columns ∧
       c.lo ∈ c.df.columns ∧ c.cl ∈ c.df.columns)) ∧
    (c.has_OHLCV = true ↔
      (c.op ∈ c.df.columns ∧ c.hi ∈ c.df.columns ∧
       c.lo ∈ c.df.columns ∧ c.cl ∈ c.df.columns ∧
       c.vo ∈ c.df.columns)) := by
  have key : ∀ S : List String,
      (decide (S.dedup.length ≤
        c.df.columns.countP (fun x => decide (x ∈ S.dedup))) = true ↔
      ∀ x ∈ S, x ∈ c.df.columns) := by
    intro S
    rw [decide_eq_true_eq]
    rw [countP_ge_iff _ _ hnd (List.nodup_dedup S)]
    constructor
    · intro h x hx
      exact h x (List.mem_dedup.mpr hx)
    · intro h x hx
      exact h x (List.mem_dedup.mp hx)
  constructor
  · have h4 := key [c.op, c.hi, c.lo, c.cl]
    unfold Chart.has_OHLC
    rw [h4]
    simp
  · have h5 := key [c.op, c.hi, c.lo, c.cl, c.vo]
    unfold Chart.has_OHLCV
    rw [h5]
    simp

/-- A table with five distinct OHLCV labels. -/
def c6wChart : Chart :=
  chartOf srcD
    { index := [0],
      cols := [("Open", [4]), ("High", [6]), ("Low", [2]), ("Close", [3]),
               ("Volume", [5])] }
    noInd none []

/-- C6 witness: on a duplicate-free table the amended iff holds. -/
theorem claim6_iff_witness :
    c6wChart.df.columns.Nodup ∧
    ((c6wChart.has_OHLC = true ↔
      (c6wChart.op ∈ c6wChart.df.columns ∧ c6wChart.hi ∈ c6wChart.df.columns ∧
       c6wChart.lo ∈ c6wChart.df.columns ∧
       c6wChart.cl ∈ c6wChart.df.columns)) ∧
    (c6wChart.has_OHLCV = true ↔
      (c6wChart.op ∈ c6wChart.df.columns ∧ c6wChart.hi ∈ c6wChart.df.columns ∧
       c6wChart.lo ∈ c6wChart.df.columns ∧ c6wChart.cl ∈ c6wChart.df.columns ∧
       c6wChart.vo ∈ c6wChart.df.columns))) :=
  ⟨by decide, claim6_iff c6wChart (by decide)⟩

/-! ## Claim C8 -/

/-- A zero-row table carrying all six relevant column labels. -/
def c8cexChart : Chart :=
  chartOf srcD
    { index := [],
      cols := [("Open", []), ("High", []), ("Low", []), ("Close", []),
               ("Adj Close", []), ("Volume", [])] }
    noInd none []

/-- C8 counterexample: a zero-row table satisfies every column
precondition of the adjustment methods, yet on the copy path neither
returns a new Chart: after mutating the copy, `Chart(df2)` (chart.py 276
and 300) evaluates the default `start = self.df.index[0]` (line 105),
which raises `IndexError` on the empty index — so the unconditional
copy-path claim fails on zero-row tables. -/
theorem claim8_copy_cex :
    c8cexChart.has_OHLC = true ∧
    c8cexChart.has_close = true ∧
    c8cexChart.has_adjusted_close = true ∧
    c8cexChart.has_volume = true ∧
    Chart.adjust srcD c8cexChart false = .error .indexError ∧
    Chart.adjust_volume srcD c8cexChart false = .error .indexError :=
  ⟨by decide, by decide, by decide, by decide, rfl, rfl⟩

/-- C8 (amended): on the copy path (`inplace = False`), provided the table
has at least one row (so that `Chart(df2)`'s default `start`/`end` lookups
at the ends of the index succeed), the adjustment methods leave the
receiver untouched and return a fresh chart wrapping the copied table with
the adjusted columns written into the copy (chart.py 265-276 and 293-300):
the final state of `self` is the original chart, and the returned chart
wraps exactly the copy-then-mutate-copy table. -/
theorem claim8_copy (ds : SrcMap) (c : Chart)
    (clv aclv opv hiv lov vov : List ℚ) (q0 qn : ℚ)
    (hOHLC : c.has_OHLC = true)
    (hvol : c.has_volume = true)
    (hcl : c.df.getCol c.cl = some clv)
    (hacl : c.df.getCol c.acl = some aclv)
    (hop : c.df.getCol c.op = some opv)
    (hhi : c.df.getCol c.hi = some hiv)
    (hlo : c.df.getCol c.lo = some lov)
    (hvo : c.df.getCol c.vo = some vov)
    (hhead : c.df.index.head? = some q0)
    (hlast : c.df.index.getLast? = some qn) :
    Chart.adjust ds c false =
      .ok (c, some (freshChart ds
        ((((c.df.setCol c.op (divCol opv (divCol clv aclv))).setCol c.hi
          (divCol hiv (divCol clv aclv))).setCol c.lo
          (divCol lov (divCol clv aclv))).setCol c.cl
          (divCol clv (divCol clv aclv))) q0 qn)) ∧
    Chart.adjust_volume ds c false =
      .ok (c, some (freshChart ds
        (c.df.setCol c.vo (divCol vov (divCol clv aclv))) q0 qn)) := by
  constructor
  · simp [Chart.adjust, DataFrame.getColE, hOHLC, hcl, hacl, hop, hhi, hlo,
      Chart.init, freshChart, hhead, hlast]
  · simp [Chart.adjust_volume, DataFrame.getColE, hvol, hcl, hacl, hvo,
      Chart.init, freshChart, hhead, hlast]

/-- A table with all six relevant columns. -/
def c8wChart : Chart :=
  chartOf srcD
    { index := [0],
      cols := [("Open", [4]), ("High", [6]), ("Low", [2]), ("Close", [3]),
               ("Adj Close", [6]), ("Volume", [8])] }
    noInd none []

/-- C8 witness: the copy-path contract at a concrete fully-populated
chart. -/
theorem claim8_copy_witness :
    c8wChart.has_OHLC = true ∧ c8wChart.has_volume = true ∧
    (Chart.adjust srcD c8wChart false =
      .ok (c8wChart, some (freshChart srcD
        ((((c8wChart.df.setCol c8wChart.op
          (divCol [4] (divCol [3] [6]))).setCol c8wChart.hi
          (divCol [6] (divCol [3] [6]))).setCol c8wChart.lo
          (divCol [2] (divCol [3] [6]))).setCol c8wChart.cl
          (divCol [3] (divCol [3] [6]))) 0 0)) ∧
    Chart.adjust_volume srcD c8wChart false =
      .ok (c8wChart, some (freshChart srcD
        (c8wChart.df.setCol c8wChart.vo (divCol [8] (divCol [3] [6]))) 0 0))) :=
  ⟨by decide, by decide,
    claim8_copy srcD c8wChart [3] [6] [4] [6] [2] [8] 0 0
      (by decide) (by decide) rfl rfl rfl rfl rfl rfl rfl rfl⟩

/-! ## Claim C9 -/

/-- A table where close and adjusted close are both the zero column. -/
def c9Chart : Chart :=
  chartOf srcD
    { index := [0],
      cols := [("Open", [5]), ("High", [5]), ("Low", [5]), ("Close", [0]),
               ("Adj Close", [0])] }
    noInd none []

/-- C9 counterexample: with close equal to adjusted close but containing a
zero, the ratio entry is `0/0` and dividing open by it is not the
identity — in the source the elementwise division propagates NaN; in this
rational embedding the open entry 5 becomes `5 / (0 / 0) = 0 ≠ 5` — so
`adjust` does not leave OHLC unchanged. -/
theorem claim9_cex :
    c9Chart.df.getCol c9Chart.cl = c9Chart.df.getCol c9Chart.acl ∧
    c9Chart.has_OHLC = true ∧
    adjSelfCol (Chart.adjust srcD c9Chart true) "Open" =
      some (some [5 / (0 / 0)]) ∧
    (5 : ℚ) / (0 / 0) ≠ 5 ∧
    c9Chart.df.getCol "Open" = some [5] := by
  refine ⟨rfl, by decide, rfl, ?_, rfl⟩
  rw [div_zero, div_zero]
  norm_num

/-- C9 (amended): when close equals adjusted close elementwise, every
close entry is nonzero, the column labels are pairwise distinct and the
OHLC columns are index-aligned with close, `adjust` leaves the chart —
hence all four OHLC columns — unchanged (the in-place call returns the
receiver in its original state). -/
theorem claim9_identity (ds : SrcMap) (c : Chart)
    (clv opv hiv lov : List ℚ)
    (hnd : c.df.columns.Nodup)
    (hOHLC : c.has_OHLC = true)
    (hcl : c.df.getCol c.cl = some clv)
    (hacl : c.df.getCol c.acl = some clv)
    (hnz : ∀ x ∈ clv, x ≠ 0)
    (hop : c.df.getCol c.op = some opv)
    (hlenop : opv.length = clv.length)
    (hhi : c.df.getCol c.hi = some hiv)
    (hlenhi : hiv.length = clv.length)
    (hlo : c.df.getCol c.lo = some lov)
    (hlenlo : lov.length = clv.length) :
    Chart.adjust ds c true = .ok (c, none) := by
  have e1 : divCol opv (divCol clv clv) = opv :=
    divCol_ratio_self opv clv hlenop hnz
  have e2 : divCol hiv (divCol clv clv) = hiv :=
    divCol_ratio_self hiv clv hlenhi hnz
  have e3 : divCol lov (divCol clv clv) = lov :=
    divCol_ratio_self lov clv hlenlo hnz
  have e4 : divCol clv (divCol clv clv) = clv :=
    divCol_ratio_self clv clv rfl hnz
  have s1 : c.df.setCol c.op opv = c.df := setCol_self hnd hop
  have s2 : c.df.setCol c.hi hiv = c.df := setCol_self hnd hhi
  have s3 : c.df.setCol c.lo lov = c.df := setCol_self hnd hlo
  have s4 : c.df.setCol c.cl clv = c.df := setCol_self hnd hcl
  simp [Chart.adjust, DataFrame.getColE, hOHLC, hcl, hacl, hop, hhi, hlo,
    e1, e2, e3, e4, s1, s2, s3, s4]

/-- A table where close and adjusted close are the same nonzero column. -/
def c9wChart : Chart :=
  chartOf srcD
    { index := [0],
      cols := [("Open", [4]), ("High", [6]), ("Low", [2]), ("Close", [2]),
               ("Adj Close", [2])] }
    noInd none []

/-- C9 witness: the identity on a concrete chart with close equal to a
nonzero adjusted close. -/
theorem claim9_identity_witness :
    c9wChart.df.columns.Nodup ∧ c9wChart.has_OHLC = true ∧
    (∀ x ∈ [(2 : ℚ)], x ≠ 0) ∧
    Chart.adjust srcD c9wChart true = .ok (c9wChart, none) :=
  ⟨by decide, by decide, by simp,
    claim9_identity srcD c9wChart [2] [4] [6] [2] (by decide) (by decide)
      rfl rfl (by simp) rfl rfl rfl rfl rfl rfl⟩

/-! ## Claim C10 -/

/-- C10: any `start`/`end` argument that is not `None`, not equal to
`False` and not a string — datetime objects in particular — makes the
constructor raise, because `isinstance(start, dt.dateime)` (chart.py 98,
113) evaluates the nonexistent attribute `dt.dateime` and dies with
`AttributeError` before the value could be accepted. -/
theorem claim10_start_end (ds : SrcMap) (df : DataFrame) (v : PyValue)
    (q0 : ℚ) (hf : v.pyEqFalse = false) (hs : v.isStr = false)
    (hhead : df.index.head? = some q0) :
    Chart.init ds df none none (some v) none =
      .error (.attributeError "dateime") ∧
    Chart.init ds df none none none (some v) =
      .error (.attributeError "dateime") := by
  constructor
  · simp [Chart.init, hf, hs]
  · simp [Chart.init, hf, hs, hhead]

/-- C10 witness: a genuine datetime start (and end) is rejected on a
nonempty one-row table. -/
theorem claim10_start_end_witness :
    PyValue.pyEqFalse (.pyDatetime 0) = false ∧
    PyValue.isStr (.pyDatetime 0) = false ∧
    ({ index := [0], cols := [] } : DataFrame).index.head? = some 0 ∧
    (Chart.init srcD { index := [0], cols := [] } none none
        (some (.pyDatetime 0)) none = .error (.attributeError "dateime") ∧
      Chart.init srcD { index := [0], cols := [] } none none none
        (some (.pyDatetime 0)) = .error (.attributeError "dateime")) :=
  ⟨rfl, rfl, rfl,
    claim10_start_end srcD { index := [0], cols := [] }
      (.pyDatetime 0) 0 rfl rfl rfl⟩

end Quantmod
